import Mathlib

/-!
Verification development for the XScr repository (a Twitter signal monitor).

Shallow embedding conventions:
* Python strings are modelled as `List Char` (abbreviated `Str`); the ASCII
  fragment of Python's case conversion is modelled explicitly, which covers
  every string the program builds.
* Python exceptions are modelled by `Except PyErr`; a `try/except` block is a
  `match` on the `Except` value.
* SQLite tables are modelled as lists of rows; a UNIQUE column constraint is
  modelled by an explicit duplicate check that produces `PyErr.integrityError`.

A source-level fact dominates this development: line 68 of
app/summarizer/ticker_extractor.py reads, byte for byte,
`clean_word = word.strip(` followed by the characters quote, `.,!?;:()[]`,
open brace, close brace, `"`, backslash, backslash, quote, quote, `)`.
Under Python's lexing of short single-quoted string literals the two
backslashes form one escaped backslash, so the first literal closes at the
next quote and the remaining quote opens a literal that reaches the end of
the line unterminated — a SyntaxError.  The module therefore never compiles;
`app.summarizer` (whose package init imports it) can never be imported, and
neither can anything that imports the package, in particular
scheduler/poller.py and telegram/client.py.  Python's string-literal lexing
is modelled below and this failure is proved from the staged bytes.
The database layer (app/database) is unaffected and is modelled behaviourally.
-/

/-- Python strings, modelled as lists of characters. -/
abbrev Str := List Char

/-- Exceptions that the modelled code can raise. -/
inductive PyErr where
  | exc : PyErr
  | integrityError : PyErr
  | nameError : Str → PyErr
  | valueError : Str → PyErr
deriving DecidableEq

deriving instance DecidableEq for Except

/-- ASCII test for an uppercase letter `[A-Z]`. -/
def isUpperCh (c : Char) : Bool := 65 ≤ c.toNat && c.toNat ≤ 90

/-- ASCII model of Python's per-character `str.lower()`. -/
def lowerCh (c : Char) : Char := if isUpperCh c then Char.ofNat (c.toNat + 32) else c

/-- Python `handle.lstrip("@").lower()` as done by database/operations.py. -/
def normalizeHandle (h : Str) : Str := (h.dropWhile (fun c => c = '@')).map lowerCh

/-- Names importable inside database/operations.py: its import statements pull
in `json`, `logging`, the typing names and the names listed from `.models`.
The module never imports `sqlite3`. -/
def operationsModuleNames : List Str :=
  [("json".toList), ("logging".toList), ("List".toList), ("Optional".toList),
   ("get_connection".toList), ("get_current_timestamp".toList),
   ("TrackedHandle".toList), ("ProcessedTweet".toList),
   ("TwitterSession".toList), ("logger".toList)]

/-- add_tracked_handle from database/operations.py over a table of stored
(already normalized) handles.  A duplicate insert violates the UNIQUE
constraint and raises IntegrityError; the handler clause
`except sqlite3.IntegrityError` then evaluates the name `sqlite3`, which is
absent from the module's namespace, so Python raises NameError instead of
reaching the `raise ValueError` body. -/
def add_tracked_handle (db : List Str) (handle : Str) :
    (Except PyErr Str) × List Str :=
  let h := normalizeHandle handle
  if db.contains h then
    if operationsModuleNames.contains (("sqlite3".toList)) then
      (.error (.valueError h), db)
    else
      (.error (.nameError (("sqlite3".toList))), db)
  else (.ok h, db ++ [h])

/-- TweetSummary from summarizer/schemas.py; the three enum fields are carried
as their string values, which is how every consumer reads them.  (The schemas
module itself parses, although it can never be imported through the broken
summarizer package init.) -/
structure TweetSummary where
  summary_bullets : List Str
  tickers : List Str
  action : Str
  time_horizon : Str
  confidence : Str
  key_claims : List Str
  risks_or_unknowns : List Str
  what_to_verify : List Str
deriving DecidableEq

/-- A row of the processed_tweets table (database/models.py); the serialized
summary column is carried as the summary value itself. -/
structure ProcessedTweet where
  tweet_id : Str
  handle : Str
  tweet_text : Str
  tweet_url : Str
  summary_json : Option TweetSummary
deriving DecidableEq

/-- save_processed_tweet from database/operations.py over the
processed_tweets table: the tweet_id column is UNIQUE, so inserting an
existing id raises IntegrityError, which this function does not catch; on
success the new row is returned. -/
def save_processed_tweet (db : List ProcessedTweet)
    (tweet_id handle tweet_text tweet_url : Str)
    (summary_json : Option TweetSummary) :
    (Except PyErr ProcessedTweet) × List ProcessedTweet :=
  if db.any (fun r => r.tweet_id == tweet_id) then (.error .integrityError, db)
  else
    let row : ProcessedTweet :=
      ⟨tweet_id, normalizeHandle handle, tweet_text, tweet_url, summary_json⟩
    (.ok row, db ++ [row])

/-- is_tweet_processed from database/operations.py. -/
def is_tweet_processed (db : List ProcessedTweet) (tweet_id : Str) : Bool :=
  db.any (fun r => r.tweet_id == tweet_id)

/-- Python's lexing of the body of a short single-quoted string literal,
applied to the characters following the opening quote up to the end of the
line: a backslash together with the following character is an escape sequence
and stays inside the literal; an unescaped quote closes the literal and the
remaining characters of the line are returned; reaching the end of the line
first means the literal is unterminated, a SyntaxError. -/
def lexSingleQuoted : Str → Option Str
  | [] => none
  | c :: rest =>
      if c = '\\' then
        match rest with
        | [] => none
        | _ :: rest2 => lexSingleQuoted rest2
      else if c = '\'' then some rest
      else lexSingleQuoted rest

/-- The characters of ticker_extractor.py line 68 from the argument of
`word.strip(` to the end of the line, byte for byte as staged in the
repository: an opening quote, the thirteen punctuation characters
`.,!?;:()[]` and the two braces, a double quote, two backslashes, two
quotes, and the closing parenthesis of the call. -/
def stripCallArgChars : Str :=
  ['\'', '.', ',', '!', '?', ';', ':', '(', ')', '[', ']', '{', '}', '"',
   '\\', '\\', '\'', '\'', ')']

/-- What Python's lexer finds after the first string literal of line 68
closes: a stray quote and the closing parenthesis. -/
def line68AfterFirstLiteral : Str := ['\'', ')']

/-- The evident one-byte intent of line 68 — a single backslash escaping the
quote instead of an escaped backslash — for contrast with the staged bytes.
This is not the staged source; it is the repair under which the line lexes as
one complete literal, the reading the module's own test suite presupposes. -/
def stripCallArgIntendedChars : Str :=
  ['\'', '.', ',', '!', '?', ';', ':', '(', ')', '[', ']', '{', '}', '"',
   '\\', '\'', '\'', ')']

/-- Whether a line remainder lexes as Python requires here: one complete
single-quoted string literal followed exactly by the closing parenthesis of
the `strip` call. -/
def lexesAsStripCall (l : Str) : Bool :=
  match l with
  | '\'' :: rest =>
      match lexSingleQuoted rest with
      | some [')'] => true
      | _ => false
  | _ => false

/-- C4: evaluation of the code at the failing input.  Adding "@TSLA" to an
empty store normalizes the handle to "tsla"; adding it again when "tsla" is
already tracked raises NameError("sqlite3") — not the documented
ValueError — because operations.py references `sqlite3.IntegrityError` in its
handler clause without ever importing `sqlite3`. -/
theorem add_tracked_handle_nameerror_on_duplicate :
    add_tracked_handle [] (("@TSLA".toList)) =
      (.ok (("tsla".toList)), [("tsla".toList)]) ∧
      add_tracked_handle [("tsla".toList)] (("@TSLA".toList)) =
        (.error (.nameError (("sqlite3".toList))), [("tsla".toList)]) ∧
      (∀ m : Str,
        (add_tracked_handle [("tsla".toList)] (("@TSLA".toList))).1 ≠
          .error (.valueError m)) := by
  refine ⟨by decide, by decide, ?_⟩
  intro m
  have h2 : (add_tracked_handle [("tsla".toList)] (("@TSLA".toList))).1 =
      .error (.nameError (("sqlite3".toList))) := by decide
  rw [h2]
  intro hcontra
  exact PyErr.noConfusion (Except.error.inj hcontra)

/-- C5: marking a post processed a second time never creates a second row.
The first insert for a fresh id succeeds and appends one row; a second
insert with the same id hits the UNIQUE constraint on tweet_id, returns the
IntegrityError conflict outcome without touching the table, and the table
holds exactly one row for that id. -/
theorem mark_processed_conflict (db : List ProcessedTweet)
    (tid h1 x1 u1 h2 x2 u2 : Str) (sm1 sm2 : Option TweetSummary)
    (hfresh : ∀ r ∈ db, r.tweet_id ≠ tid) :
    ∃ row : ProcessedTweet,
      save_processed_tweet db tid h1 x1 u1 sm1 = (.ok row, db ++ [row]) ∧
        save_processed_tweet (db ++ [row]) tid h2 x2 u2 sm2 =
          (.error .integrityError, db ++ [row]) ∧
        ((db ++ [row]).filter (fun r => r.tweet_id == tid)).length = 1 := by
  have hany : db.any (fun r => r.tweet_id == tid) = false := by
    rw [List.any_eq_false]
    intro r hr
    simp [hfresh r hr]
  refine ⟨⟨tid, normalizeHandle h1, x1, u1, sm1⟩, ?_, ?_, ?_⟩
  · simp [save_processed_tweet, hany]
  · have hany2 : (db ++ [(⟨tid, normalizeHandle h1, x1, u1, sm1⟩ :
        ProcessedTweet)]).any (fun r => r.tweet_id == tid) = true := by
      simp
    simp [save_processed_tweet, hany2]
  · have hfilter : db.filter (fun r => r.tweet_id == tid) = [] := by
      rw [List.filter_eq_nil_iff]
      intro r hr
      simp [hfresh r hr]
    simp [List.filter_append, hfilter]

/-- Witness for `mark_processed_conflict` at the empty store and a concrete
post. -/
theorem mark_processed_conflict_witness :
    (∀ r : ProcessedTweet, r ∈ ([] : List ProcessedTweet) →
        r.tweet_id ≠ ("111".toList)) ∧
      ∃ row : ProcessedTweet,
        save_processed_tweet [] (("111".toList)) (("alice".toList))
            (("hi".toList)) (("u".toList)) none = (.ok row, [] ++ [row]) ∧
          save_processed_tweet ([] ++ [row]) (("111".toList))
              (("alice".toList)) (("bye".toList)) (("u2".toList)) none =
            (.error .integrityError, [] ++ [row]) ∧
          ((([] ++ [row] : List ProcessedTweet)).filter
            (fun r => r.tweet_id == ("111".toList))).length = 1 :=
  ⟨by simp, mark_processed_conflict [] (("111".toList)) (("alice".toList))
    (("hi".toList)) (("u".toList)) (("alice".toList)) (("bye".toList))
    (("u2".toList)) none none (by simp)⟩

/-- C2: evaluation of the code at the failing input.  The poll cycle can
never be invoked: scheduler/poller.py imports app.summarizer, whose package
init compiles ticker_extractor.py, and that compilation fails — on line 68
the first string literal of the `strip` argument closes after the escaped
backslash, leaving a stray quote whose literal reaches the end of the line
unterminated (a SyntaxError).  So the import, and hence every attempted
invocation of poll_tweets_once, raises before a cycle can start, and no
statistics record is ever returned. -/
theorem poll_cycle_never_invocable :
    lexesAsStripCall stripCallArgChars = false ∧
      lexSingleQuoted (stripCallArgChars.drop 1) = some line68AfterFirstLiteral ∧
      lexSingleQuoted (line68AfterFirstLiteral.drop 1) = none := by
  refine ⟨by decide, by decide, by decide⟩

/-- C7: evaluation of the code at the failing input.  The body of
extract_tickers itself contains line 68: the staged bytes do not lex (the
two backslashes form one escaped backslash, the first literal closes early
and the stray quote opens an unterminated literal — SyntaxError), while the
one-byte repair with a backslash-escaped quote lexes as one complete
literal.  The module therefore never compiles, extract_tickers never exists,
and its own test suite cannot even import it. -/
theorem ticker_strip_literal_unterminated :
    lexSingleQuoted (stripCallArgChars.drop 1) = some ['\'', ')'] ∧
      lexSingleQuoted [')'] = none ∧
      lexesAsStripCall stripCallArgChars = false ∧
      lexesAsStripCall stripCallArgIntendedChars = true := by
  refine ⟨by decide, by decide, by decide, by decide⟩

/-- C8: evaluation of the code at the failing input.  extract_action_keywords
is defined in ticker_extractor.py, which never compiles: line 68 starts with
a quote, its first literal closes before the stray quote, and the stray
quote's literal is unterminated at the end of the line (a SyntaxError), so
no action-keyword extractor ever exists at runtime. -/
theorem action_keyword_module_never_compiles :
    stripCallArgChars.head? = some '\'' ∧
      lexSingleQuoted (stripCallArgChars.drop 1) = some line68AfterFirstLiteral ∧
      lexSingleQuoted (line68AfterFirstLiteral.drop 1) = none := by
  refine ⟨by decide, by decide, by decide⟩

/-- C9: evaluation of the code at the failing input.  The zero-tracked-
accounts short circuit of poll_tweets_once (poller.py lines 73-76) is
unreachable: importing the poller compiles ticker_extractor.py via the
summarizer package init, and that compilation fails because line 68's first
string literal closes early and the remainder is an unterminated literal
(SyntaxError), so no cycle ever runs and no all-zero statistics record is
ever returned. -/
theorem poll_short_circuit_unreachable :
    lexSingleQuoted (stripCallArgChars.drop 1) = some ['\'', ')'] ∧
      lexesAsStripCall stripCallArgChars = false := by
  refine ⟨by decide, by decide⟩

/-- C10: evaluation of the code at the failing input.  The claim is about
extract_tickers and the case-sensitivity of TICKER_PATTERNS, but the module
containing both never compiles — the staged strip argument of line 68 fails
to lex while its evident one-byte repair lexes cleanly — so the patterns are
never even built into regexes and extract_tickers has no behaviour. -/
theorem ticker_patterns_never_compiled :
    lexesAsStripCall stripCallArgIntendedChars = true ∧
      lexesAsStripCall stripCallArgChars = false ∧
      lexSingleQuoted (line68AfterFirstLiteral.drop 1) = none := by
  refine ⟨by decide, by decide, by decide⟩
